import Mathlib

/-!
# Status aggregation of the packet forwarder (`pktfwd/status.go`)

A shallow embedding of `statusManager`: the four traffic counters, the boot-time
reference, `getOSInfo` and `GenerateStatus`, followed by the properties of the
specification that concern them.

Conventions of the embedding

* Go machine integers are `Nat`/`Int` with explicit reduction modulo `2^32`.
* Floating-point values are not computed with: the numeric types of the external
  libraries and the conversions `float32(..)`/`int32(..)` applied to them are the
  fields of a `Numerics` record, and every definition and theorem is stated for an
  arbitrary such record.
* The collaborators (`cpu.Times`, `load.Avg`, `mem.VirtualMemory`,
  `net.InterfaceAddrs`, `wrapper.GetGPSCoordinates`, `time.Now`, the logging sink)
  are explicit: their outcomes are the fields of `Env`, and the calls made to them
  are returned as a list of `Event`s.
-/

namespace pktfwd

/-! ## Machine integers -/

/-- Conversion `uint32(x)` of a Go integer: reduction modulo `2^32`. -/
def uint32 (x : Int) : Nat := (x % 4294967296).toNat

/-- The function `atomic.AddUint32(&c, delta)`, as the new value of `c`. -/
def atomicAddUint32 (c delta : Nat) : Nat := (c + delta) % 4294967296

/-! ## Errors and the logging sink -/

/-- A non-nil Go `error`, identified with its message. -/
structure GoError where
  msg : String
deriving DecidableEq, Repr

/-- The function `errors.Wrap(err, message)` of `pkg/errors` for a non-nil `err`. -/
def errorsWrap (err : GoError) (message : String) : GoError :=
  ⟨message ++ ": " ++ err.msg⟩

/-- The external collaborators a call can reach. -/
inductive Collaborator
  | clock
  | cpuTimes
  | loadAvg
  | virtualMemory
  | interfaceAddrs
  | gps
deriving DecidableEq, Repr

/-- What a call does to the outside: a query of a collaborator, or a warning on the
logging sink (with the error attached by `WithError`, if any). -/
inductive Event
  | query (c : Collaborator)
  | warn (err : Option GoError) (msg : String)
deriving DecidableEq, Repr

/-! ## Numeric types of the external libraries -/

/-- The numeric types whose declarations live outside the repository, with the Go
conversions and float operations `status.go` applies to them. -/
structure Numerics where
  /-- Go `float64`. -/
  Float64 : Type
  /-- Go `float32`. -/
  Float32 : Type
  /-- Type of `account.AntennaLocation.Altitude` (behind its pointer). -/
  AccountAltitude : Type
  /-- Type of the `Altitude` field of the value `wrapper.GetGPSCoordinates` returns. -/
  GPSAltitude : Type
  /-- Zero value of `float32`. -/
  zero32 : Float32
  /-- Conversion `float32(x)`. -/
  float32 : Float64 → Float32
  /-- Conversion `int32(x)` of an account-server altitude. -/
  int32OfAccount : AccountAltitude → Int
  /-- Conversion `int32(x)` of a GPS altitude. -/
  int32OfGPS : GPSAltitude → Int
  /-- Subtraction of `float64`. -/
  sub : Float64 → Float64 → Float64
  /-- Division of `float64`. -/
  div : Float64 → Float64 → Float64
  /-- Multiplication of `float64`. -/
  mul : Float64 → Float64 → Float64
  /-- The constant `100` as a `float64`. -/
  hundred : Float64

/-- Exact rational arithmetic as an instance of `Numerics`, for evaluating the
definitions on concrete inputs. -/
@[reducible]
def exactNumerics : Numerics where
  Float64 := ℚ
  Float32 := ℚ
  AccountAltitude := Int
  GPSAltitude := Int
  zero32 := 0
  float32 := fun x => x
  int32OfAccount := fun x => x
  int32OfGPS := fun x => x
  sub := fun x y => x - y
  div := fun x y => x / y
  mul := fun x y => x * y
  hundred := 100

/-! ## Data model -/

/-- The record `account.AntennaLocation`: three optional (pointer) fields. -/
structure AntennaLocation (N : Numerics) where
  Latitude : Option N.Float64
  Longitude : Option N.Float64
  Altitude : Option N.AccountAltitude

/-- The value returned by `wrapper.GetGPSCoordinates`. -/
structure GPSCoordinates (N : Numerics) where
  Latitude : N.Float64
  Longitude : N.Float64
  Altitude : N.GPSAltitude

/-- The record `gateway.GPSMetadata`, with the fields `status.go` writes. -/
structure GPSMetadata (N : Numerics) where
  Latitude : N.Float32
  Longitude : N.Float32
  Altitude : Int

/-- The value `new(gateway.GPSMetadata)`: every field at its zero value. -/
def GPSMetadata.zero (N : Numerics) : GPSMetadata N :=
  ⟨N.zero32, N.zero32, 0⟩

/-- The record `gateway.Status_OSMetrics`. -/
structure OSMetrics (N : Numerics) where
  Load_1 : N.Float32
  Load_5 : N.Float32
  Load_15 : N.Float32
  CpuPercentage : N.Float32
  MemoryPercentage : N.Float32
  Temperature : N.Float32

/-- The value `&gateway.Status_OSMetrics{}`. -/
def OSMetrics.zero (N : Numerics) : OSMetrics N :=
  ⟨N.zero32, N.zero32, N.zero32, N.zero32, N.zero32, N.zero32⟩

/-- What `getOSInfo` reads of a `cpu.TimesStat`: the field `Idle` and the value of
the method `Total()`. -/
structure TimesStat (N : Numerics) where
  Total : N.Float64
  Idle : N.Float64

/-- The record `load.AvgStat`. -/
structure AvgStat (N : Numerics) where
  Load1 : N.Float64
  Load5 : N.Float64
  Load15 : N.Float64

/-- What `getOSInfo` reads of a `mem.VirtualMemoryStat`. -/
structure VirtualMemoryStat (N : Numerics) where
  UsedPercent : N.Float64

/-- A `net.IP`: a slice of bytes. -/
abbrev IP := List Nat

/-- A `net.Addr` as `net.InterfaceAddrs` can return it: an `*net.IPNet`, or another
implementation of the interface (`*net.IPAddr`). -/
inductive Addr
  | IPNet (ip : IP) (mask : List Nat)
  | IPAddr (ip : IP) (zone : String)
deriving DecidableEq, Repr

/-- The method `net.IP.To4`: the 4-byte form of an IPv4 or IPv4-mapped address,
`none` (nil) otherwise. -/
def To4 (ip : IP) : Option IP :=
  if ip.length = 4 then some ip
  else if ip.length = 16 ∧ ip.take 10 = List.replicate 10 0
      ∧ ip[10]? = some 255 ∧ ip[11]? = some 255 then
    some (ip.drop 12)
  else none

/-- The address `net.IPv6loopback`. -/
def IPv6loopback : IP := [0, 0, 0, 0, 0, 0, 0, 0, 0, 0, 0, 0, 0, 0, 0, 1]

/-- The method `net.IP.IsLoopback`. -/
def IsLoopback (ip : IP) : Bool :=
  match To4 ip with
  | some ip4 => ip4.head? == some 127
  | none => ip == IPv6loopback

/-- The method `net.IP.String` on the addresses `GenerateStatus` renders, those whose
`To4` is non-nil: dotted decimal. The IPv6 text form is not modelled and stands as
the empty string. -/
def IPString (ip : IP) : String :=
  match To4 ip with
  | some [a, b, c, d] =>
      toString a ++ "." ++ toString b ++ "." ++ toString c ++ "." ++ toString d
  | _ => ""

/-- The record `gateway.Status`, with the fields `GenerateStatus` writes. The two
pointer fields `Os` and `Gps` are options. -/
structure Status (N : Numerics) where
  Timestamp : Nat
  Time : Int
  GatewayTrusted : Bool
  Region : String
  Ip : List String
  Platform : String
  ContactEmail : String
  Description : String
  Rtt : Nat
  RxIn : Nat
  RxOk : Nat
  TxIn : Nat
  TxOk : Nat
  Os : Option (OSMetrics N)
  Gps : Option (GPSMetadata N)

/-- The struct `statusManager`. Times are nanoseconds on one time line; the logging
sink `ctx` is represented by the `Event`s the operations return. -/
structure statusManager (N : Numerics) where
  antennaLocation : Option (AntennaLocation N)
  isGPSChip : Bool
  rxIn : Nat
  rxOk : Nat
  txIn : Nat
  txOk : Nat
  frequencyPlan : String
  gatewayDescription : String
  bootTime : Option Int

/-- The outcomes of the collaborators during one call of `GenerateStatus`. -/
structure Env (N : Numerics) where
  /-- Result of the k-th call of `time.Now()` within the call. -/
  clock : Nat → Int
  /-- Nanoseconds per tick of `util.TXTimestampFromDuration`. -/
  timestampUnit : Int
  /-- Outcome of `cpu.Times(false)`. -/
  cpuTimes : Except GoError (List (TimesStat N))
  /-- Outcome of `load.Avg()`. -/
  loadAvg : Except GoError (AvgStat N)
  /-- Outcome of `mem.VirtualMemory()`. -/
  virtualMemory : Except GoError (VirtualMemoryStat N)
  /-- Outcome of `net.InterfaceAddrs()`. -/
  interfaceAddrs : Except GoError (List Addr)
  /-- Outcome of `wrapper.GetGPSCoordinates()`, were it called. -/
  gps : Except GoError (GPSCoordinates N)
  /-- The constant `runtime.GOOS`. -/
  goos : String

/-! ## Operations -/

/-- The constructor `NewStatusManager`: the new manager and what was logged. -/
def NewStatusManager (N : Numerics) (frequencyPlan gatewayDescription : String)
    (isGPSChip : Bool) (antennaLocation : Option (AntennaLocation N)) :
    statusManager N × List Event :=
  ({ antennaLocation := antennaLocation
     isGPSChip := isGPSChip
     rxIn := 0
     rxOk := 0
     txIn := 0
     txOk := 0
     frequencyPlan := frequencyPlan
     gatewayDescription := gatewayDescription
     bootTime := none },
   match antennaLocation with
   | none => [Event.warn none "Antenna location unavailable from the account server"]
   | some _ => [])

/-- The method `SetBootTime`. -/
def SetBootTime {N : Numerics} (s : statusManager N) (t : Int) : statusManager N :=
  { s with bootTime := some t }

/-- The method `ReceivedTX`. -/
def ReceivedTX {N : Numerics} (s : statusManager N) : statusManager N :=
  { s with txIn := atomicAddUint32 s.txIn 1 }

/-- The method `SentTX`. -/
def SentTX {N : Numerics} (s : statusManager N) : statusManager N :=
  { s with txOk := atomicAddUint32 s.txOk 1 }

/-- The method `HandledRXBatch`. -/
def HandledRXBatch {N : Numerics} (s : statusManager N) (received valid : Int) :
    statusManager N :=
  { s with
    rxIn := atomicAddUint32 s.rxIn (uint32 received)
    rxOk := atomicAddUint32 s.rxOk (uint32 valid) }

/-- The function `getOSInfo`. -/
def getOSInfo (N : Numerics) (env : Env N) : OSMetrics N :=
  let osInfo := OSMetrics.zero N
  let osInfo :=
    match env.cpuTimes with
    | .ok (cpuStat :: _) =>
        let cpuUsageTime := N.sub cpuStat.Total cpuStat.Idle
        { osInfo with
          CpuPercentage := N.float32 (N.mul (N.div cpuUsageTime cpuStat.Total) N.hundred) }
    | _ => osInfo
  let osInfo :=
    match env.loadAvg with
    | .ok loadInfo =>
        { osInfo with
          Load_1 := N.float32 loadInfo.Load1
          Load_5 := N.float32 loadInfo.Load5
          Load_15 := N.float32 loadInfo.Load15 }
    | .error _ => osInfo
  let osInfo :=
    match env.virtualMemory with
    | .ok virtualMemory =>
        { osInfo with MemoryPercentage := N.float32 virtualMemory.UsedPercent }
    | .error _ => osInfo
  osInfo

/-- The queries `getOSInfo` makes, in order. -/
def getOSInfoEvents : List Event :=
  [.query .cpuTimes, .query .loadAvg, .query .virtualMemory]

/-- Largest `time.Duration`. -/
def maxDuration : Int := 9223372036854775807

/-- Smallest `time.Duration`. -/
def minDuration : Int := -9223372036854775808

/-- The method `time.Time.Sub`: the difference, clamped to the range of a
`time.Duration`. -/
def timeSub (t u : Int) : Int :=
  let d := t - u
  if d > maxDuration then maxDuration else if d < minDuration then minDuration else d

/-- Modelled from the spec: `util.TXTimestampFromDuration`, the helper (outside the
given sources) that converts a duration to the timestamp unit of the output format
by a fixed conversion factor, here `unit` nanoseconds per tick; the rollover is the
`uint32` conversion `GenerateStatus` applies to its result. -/
def TXTimestampFromDuration (unit : Int) (d : Int) : Int :=
  Int.tdiv d unit

/-- One iteration of the address loop of `GenerateStatus`. -/
def collectIP (ips : List String) (a : Addr) : List String :=
  match a with
  | .IPNet ip _ =>
      if !IsLoopback ip then
        if (To4 ip).isSome then ips ++ [IPString ip] else ips
      else ips
  | _ => ips

/-- The location built from the account-server descriptor before the GPS chip is
consulted (lines 146-157). -/
def accountCoordinates (N : Numerics) (antennaLocation : Option (AntennaLocation N)) :
    GPSMetadata N :=
  let coordinates := GPSMetadata.zero N
  match antennaLocation with
  | some loc =>
      let coordinates :=
        match loc.Latitude with
        | some v => { coordinates with Latitude := N.float32 v }
        | none => coordinates
      let coordinates :=
        match loc.Longitude with
        | some v => { coordinates with Longitude := N.float32 v }
        | none => coordinates
      let coordinates :=
        match loc.Altitude with
        | some v => { coordinates with Altitude := N.int32OfAccount v }
        | none => coordinates
      coordinates
  | none => coordinates

/-- What `GenerateStatus` returns, `(*gateway.Status, error)`, and what it did. -/
structure GenerateResult (N : Numerics) where
  status : Option (Status N)
  err : Option GoError
  events : List Event

/-- The method `GenerateStatus`. -/
def GenerateStatus (N : Numerics) (s : statusManager N) (env : Env N) (rtt : Int) :
    GenerateResult N :=
  let (concentratorBootTime, bootEvents, reads) :=
    match s.bootTime with
    | none => ((0 : Int), ([] : List Event), 0)
    | some t => (timeSub (env.clock 0) t, [Event.query .clock], 1)
  let osInfo := getOSInfo N env
  let events := bootEvents ++ getOSInfoEvents ++ [.query .interfaceAddrs]
  match env.interfaceAddrs with
  | .error err =>
      { status := none
        err := some (errorsWrap err "Net interfaces obtention error")
        events := events }
  | .ok addrs =>
      let ips := addrs.foldl collectIP []
      let status : Status N :=
        { Timestamp := uint32 (TXTimestampFromDuration env.timestampUnit concentratorBootTime)
          Time := env.clock reads
          GatewayTrusted := true
          Region := s.frequencyPlan
          Ip := ips
          Platform := env.goos
          ContactEmail := ""
          Description := s.gatewayDescription
          Rtt := uint32 (Int.tdiv rtt 1000000)
          RxIn := s.rxIn
          RxOk := s.rxOk
          TxIn := s.txIn
          TxOk := s.txOk
          Os := some osInfo
          Gps := none }
      let events := events ++ [.query .clock]
      let coordinates := accountCoordinates N s.antennaLocation
      let (coordinates, events) :=
        if s.isGPSChip then
          match env.gps with
          | .error err =>
              (coordinates,
               events ++ [.query .gps,
                 .warn (some err) "Unable to retrieve GPS coordinates from the GPS hardware"])
          | .ok gpsChipCoordinates =>
              ({ Latitude := N.float32 gpsChipCoordinates.Latitude
                 Longitude := N.float32 gpsChipCoordinates.Longitude
                 Altitude := N.int32OfGPS gpsChipCoordinates.Altitude },
               events ++ [.query .gps])
        else (coordinates, events)
      { status := some { status with Gps := some coordinates }
        err := none
        events := events }

/-- An operation on a `statusManager`. -/
inductive Op (N : Numerics)
  | SetBootTime (t : Int)
  | ReceivedTX
  | SentTX
  | HandledRXBatch (received valid : Int)
  | GenerateStatus (env : Env N) (rtt : Int)

/-- The manager after an operation. `GenerateStatus` only reads. -/
def step {N : Numerics} (s : statusManager N) : Op N → statusManager N
  | .SetBootTime t => SetBootTime s t
  | .ReceivedTX => ReceivedTX s
  | .SentTX => SentTX s
  | .HandledRXBatch received valid => HandledRXBatch s received valid
  | .GenerateStatus _ _ => s

/-- The manager after a sequence of operations. -/
def run {N : Numerics} (s : statusManager N) (ops : List (Op N)) : statusManager N :=
  ops.foldl step s

/-! ## Concurrent callers -/

/-- One `atomic.AddUint32` on one of the four counters, with its increment. -/
inductive Atom
  | rxIn (delta : Nat)
  | rxOk (delta : Nat)
  | txIn (delta : Nat)
  | txOk (delta : Nat)
deriving DecidableEq, Repr

/-- The manager after one atomic add. -/
def Atom.exec {N : Numerics} (s : statusManager N) : Atom → statusManager N
  | .rxIn delta => { s with rxIn := atomicAddUint32 s.rxIn delta }
  | .rxOk delta => { s with rxOk := atomicAddUint32 s.rxOk delta }
  | .txIn delta => { s with txIn := atomicAddUint32 s.txIn delta }
  | .txOk delta => { s with txOk := atomicAddUint32 s.txOk delta }

/-- A call of one of the three counter-mutation methods. -/
inductive CounterCall
  | HandledRXBatch (received valid : Int)
  | ReceivedTX
  | SentTX
deriving DecidableEq, Repr

/-- The call as an operation on the manager. -/
def CounterCall.toOp {N : Numerics} : CounterCall → Op N
  | .HandledRXBatch received valid => .HandledRXBatch received valid
  | .ReceivedTX => .ReceivedTX
  | .SentTX => .SentTX

/-- The atomic adds a call performs, in program order (lines 64-75). -/
def CounterCall.atoms : CounterCall → List Atom
  | .HandledRXBatch received valid => [.rxIn (uint32 received), .rxOk (uint32 valid)]
  | .ReceivedTX => [.txIn 1]
  | .SentTX => [.txOk 1]

/-- The atomic adds of a caller issuing `calls` one after the other. -/
def callerAtoms : List CounterCall → List Atom
  | [] => []
  | c :: calls => c.atoms ++ callerAtoms calls

/-- One step of a concurrent execution: caller `i` performs its next atomic add.
The state is the manager and, per caller, the atomic adds still to perform; a
caller with nothing left does nothing. -/
def schedStep {N : Numerics} (st : statusManager N × List (List Atom)) (i : Nat) :
    statusManager N × List (List Atom) :=
  match st.2[i]? with
  | some (a :: rest) => (a.exec st.1, st.2.set i rest)
  | _ => st

/-- A concurrent execution: the callers take their atomic steps in the order the
schedule `sched` names them; each caller keeps its own program order. -/
def runSchedule {N : Numerics} (s : statusManager N) (pending : List (List Atom))
    (sched : List Nat) : statusManager N × List (List Atom) :=
  sched.foldl schedStep (s, pending)

/-- Every caller has performed all its atomic adds. -/
def finished (pending : List (List Atom)) : Bool :=
  pending.all List.isEmpty

/-- The four counters. -/
inductive Counter
  | rxIn
  | rxOk
  | txIn
  | txOk
deriving DecidableEq, Repr

/-- The value of a counter of the manager. -/
def statusManager.counter {N : Numerics} (s : statusManager N) : Counter → Nat
  | .rxIn => s.rxIn
  | .rxOk => s.rxOk
  | .txIn => s.txIn
  | .txOk => s.txOk

/-- What an atomic add adds to a counter. -/
def Atom.amount : Atom → Counter → Nat
  | .rxIn delta, .rxIn => delta
  | .rxOk delta, .rxOk => delta
  | .txIn delta, .txIn => delta
  | .txOk delta, .txOk => delta
  | _, _ => 0

/-- The increment of a counter a call asks for: the `received` and `valid`
arguments of `HandledRXBatch`, 1 for `ReceivedTX` and for `SentTX`. -/
def CounterCall.amount : CounterCall → Counter → Int
  | .HandledRXBatch received _, .rxIn => received
  | .HandledRXBatch _ valid, .rxOk => valid
  | .ReceivedTX, .txIn => 1
  | .SentTX, .txOk => 1
  | _, _ => 0

/-- The sum, over all callers and all their calls, of the increments of a counter. -/
def totalAmount (callers : List (List CounterCall)) (k : Counter) : Int :=
  (callers.map fun calls => (calls.map fun c => c.amount k).sum).sum

/-- The sum of what the atomic adds still to perform add to a counter. -/
def pendingAmount (pending : List (List Atom)) (k : Counter) : Int :=
  (pending.map fun p => (p.map fun a => (a.amount k : Int)).sum).sum

/-! ## Vocabulary of the specification -/

/-- The `received` argument an operation adds to the received-uplink count. -/
def Op.received {N : Numerics} : Op N → Int
  | .HandledRXBatch received _ => received
  | _ => 0

/-- The `valid` argument an operation adds to the valid-uplink count. -/
def Op.valid {N : Numerics} : Op N → Int
  | .HandledRXBatch _ valid => valid
  | _ => 0

/-- What an operation adds to the received-downlink count. -/
def Op.downlinksReceived {N : Numerics} : Op N → Int
  | .ReceivedTX => 1
  | _ => 0

/-- What an operation adds to the acknowledged-downlink count. -/
def Op.downlinksSent {N : Numerics} : Op N → Int
  | .SentTX => 1
  | _ => 0

/-- Whether an operation is a call of `SetBootTime`. -/
def Op.isSetBootTime {N : Numerics} : Op N → Bool
  | .SetBootTime _ => true
  | _ => false

/-- Every counter of a manager is below `2^32`. -/
def inRange {N : Numerics} (s : statusManager N) : Prop :=
  s.rxIn < 4294967296 ∧ s.rxOk < 4294967296 ∧ s.txIn < 4294967296 ∧ s.txOk < 4294967296

/-- The IP of an enumerated address. -/
def Addr.ip : Addr → IP
  | .IPNet ip _ => ip
  | .IPAddr ip _ => ip

/-- Whether an enumerated address is an `*net.IPNet`. -/
def Addr.isIPNet : Addr → Bool
  | .IPNet _ _ => true
  | .IPAddr _ _ => false

/-- An address qualifies, in the words of the specification, when it is
non-loopback and IPv4-mappable. -/
def Addr.qualifies (a : Addr) : Bool :=
  !IsLoopback a.ip && (To4 a.ip).isSome

/-- The IP list in the words of the specification: the qualifying addresses of the
enumeration, rendered, in order. -/
def specIpList (addrs : List Addr) : List String :=
  (addrs.filter Addr.qualifies).map fun a => IPString a.ip

/-! ## Sample inputs -/

/-- A descriptor with latitude and longitude but no altitude. -/
def sampleDescriptor : AntennaLocation exactNumerics :=
  { Latitude := some 52.5, Longitude := some 4.75, Altitude := none }

/-- A GPS fix. -/
def sampleFix : GPSCoordinates exactNumerics :=
  { Latitude := 48.25, Longitude := 2.5, Altitude := 35 }

/-- Addresses of a host with a loopback interface and one IPv4 network. -/
def sampleAddrs : List Addr :=
  [.IPNet [127, 0, 0, 1] [255, 0, 0, 0],
   .IPNet [192, 168, 1, 5] [255, 255, 255, 0],
   .IPNet IPv6loopback (List.replicate 16 255)]

/-- An environment where the CPU query is unavailable, the load averages are
(0.1, 0.2, 0.3), the memory use is 42.5 and the GPS read succeeds. -/
def sampleEnv : Env exactNumerics :=
  { clock := fun k => 1500000000000000000 + k
    timestampUnit := 1000
    cpuTimes := .error ⟨"not implemented yet"⟩
    loadAvg := .ok { Load1 := 0.1, Load5 := 0.2, Load15 := 0.3 }
    virtualMemory := .ok { UsedPercent := 42.5 }
    interfaceAddrs := .ok sampleAddrs
    gps := .ok sampleFix
    goos := "linux" }

/-- The sample environment with a failing GPS read. -/
def sampleEnvNoFix : Env exactNumerics :=
  { sampleEnv with gps := .error ⟨"no GPS fix"⟩ }

/-- A fresh manager with a GPS chip and the sample descriptor. -/
def sampleChipManager : statusManager exactNumerics :=
  (NewStatusManager exactNumerics "EU_863_870" "test gateway" true (some sampleDescriptor)).1

/-- A fresh manager with a GPS chip and without descriptor. -/
def sampleChipOnlyManager : statusManager exactNumerics :=
  (NewStatusManager exactNumerics "EU_863_870" "test gateway" true none).1

/-- A fresh manager without GPS chip and without descriptor. -/
def samplePlainManager : statusManager exactNumerics :=
  (NewStatusManager exactNumerics "EU_863_870" "test gateway" false none).1

/-- The sample environment with a failing network enumeration. -/
def sampleEnvNoNet : Env exactNumerics :=
  { sampleEnv with interfaceAddrs := .error ⟨"route ip+net: netlinkrib: too many open files"⟩ }

/-- The sample environment whose enumeration yields one `*net.IPAddr`. -/
def sampleEnvAnycast : Env exactNumerics :=
  { sampleEnv with interfaceAddrs := .ok [.IPAddr [192, 168, 1, 5] ""] }

/-- Three uplink batches of 10 frames, 8 of them valid. -/
def sampleBatches : List (Op exactNumerics) :=
  [.HandledRXBatch 10 8, .HandledRXBatch 10 8, .HandledRXBatch 10 8]

/-- Three callers, each with one uplink batch of 10 frames, 8 of them valid. -/
def sampleCallers : List (List CounterCall) :=
  [[.HandledRXBatch 10 8], [.HandledRXBatch 10 8], [.HandledRXBatch 10 8]]

/-- Three callers, each with one uplink batch of 2147483647 frames. -/
def sampleHeavyCallers : List (List CounterCall) :=
  [[.HandledRXBatch 2147483647 0], [.HandledRXBatch 2147483647 0],
   [.HandledRXBatch 2147483647 0]]

/-- An interleaving of three callers with two atomic adds each. -/
def sampleSchedule : List Nat := [0, 1, 0, 2, 2, 1]

/-! ## Auxiliary facts -/

theorem uint32_cast (x : Int) : ((uint32 x : Nat) : Int) = x % 4294967296 := by
  unfold uint32
  exact Int.toNat_of_nonneg (Int.emod_nonneg _ (by norm_num))

theorem run_cons {N : Numerics} (s : statusManager N) (op : Op N) (ops : List (Op N)) :
    run s (op :: ops) = run (step s op) ops := rfl

theorem step_inRange {N : Numerics} (s : statusManager N) (op : Op N)
    (h : inRange s) : inRange (step s op) := by
  obtain ⟨h1, h2, h3, h4⟩ := h
  cases op <;>
    simp only [step, SetBootTime, ReceivedTX, SentTX, HandledRXBatch, inRange,
      atomicAddUint32] <;>
    omega

theorem run_inRange {N : Numerics} (ops : List (Op N)) (s : statusManager N)
    (h : inRange s) : inRange (run s ops) := by
  induction ops generalizing s with
  | nil => exact h
  | cons op ops ih => exact ih _ (step_inRange s op h)

theorem step_counters {N : Numerics} (s : statusManager N) (op : Op N) :
    ((step s op).rxIn : Int) % 4294967296 = (s.rxIn + op.received) % 4294967296 ∧
    ((step s op).rxOk : Int) % 4294967296 = (s.rxOk + op.valid) % 4294967296 ∧
    ((step s op).txIn : Int) % 4294967296
      = (s.txIn + op.downlinksReceived) % 4294967296 ∧
    ((step s op).txOk : Int) % 4294967296
      = (s.txOk + op.downlinksSent) % 4294967296 := by
  cases op <;>
    simp only [step, SetBootTime, ReceivedTX, SentTX, HandledRXBatch, atomicAddUint32,
      Op.received, Op.valid, Op.downlinksReceived, Op.downlinksSent, Nat.cast_add,
      Int.natCast_mod, uint32_cast, Nat.cast_ofNat, Nat.cast_one] <;>
    omega

theorem run_counters {N : Numerics} (ops : List (Op N)) (s : statusManager N) :
    ((run s ops).rxIn : Int) % 4294967296
      = (s.rxIn + (ops.map Op.received).sum) % 4294967296 ∧
    ((run s ops).rxOk : Int) % 4294967296
      = (s.rxOk + (ops.map Op.valid).sum) % 4294967296 ∧
    ((run s ops).txIn : Int) % 4294967296
      = (s.txIn + (ops.map Op.downlinksReceived).sum) % 4294967296 ∧
    ((run s ops).txOk : Int) % 4294967296
      = (s.txOk + (ops.map Op.downlinksSent).sum) % 4294967296 := by
  induction ops generalizing s with
  | nil => simp [run]
  | cons op ops ih =>
    obtain ⟨i1, i2, i3, i4⟩ := ih (step s op)
    obtain ⟨s1, s2, s3, s4⟩ := step_counters s op
    simp only [run_cons, List.map_cons, List.sum_cons]
    refine ⟨?_, ?_, ?_, ?_⟩ <;> omega

theorem foldl_collectIP (addrs : List Addr) (acc : List String) :
    addrs.foldl collectIP acc
      = acc ++ (addrs.filter fun a => a.isIPNet && a.qualifies).map
          fun a => IPString a.ip := by
  induction addrs generalizing acc with
  | nil => simp
  | cons a addrs ih =>
    rw [List.foldl_cons, ih]
    cases a with
    | IPNet ip mask =>
      by_cases hl : IsLoopback ip = true <;> by_cases h4 : (To4 ip).isSome = true <;>
        simp [collectIP, Addr.isIPNet, Addr.qualifies, Addr.ip, hl, h4, List.filter_cons]
    | IPAddr ip zone =>
      simp [collectIP, Addr.isIPNet, List.filter_cons]

theorem step_bootTime {N : Numerics} (s : statusManager N) (op : Op N)
    (h : op.isSetBootTime = false) : (step s op).bootTime = s.bootTime := by
  cases op <;> simp_all [step, ReceivedTX, SentTX, HandledRXBatch, Op.isSetBootTime]

theorem run_bootTime {N : Numerics} (ops : List (Op N)) (s : statusManager N)
    (h : ∀ op ∈ ops, op.isSetBootTime = false) : (run s ops).bootTime = s.bootTime := by
  induction ops generalizing s with
  | nil => rfl
  | cons op ops ih =>
    rw [run_cons, ih _ (fun o ho => h o (List.mem_cons_of_mem _ ho)),
      step_bootTime s op (h op (List.mem_cons_self _ _))]

/-! ## Error contract of `GenerateStatus` -/

/-- C1. `GenerateStatus` fails exactly when `net.InterfaceAddrs` fails: on an
enumeration error the returned status is nil and the error is the wrapped enumeration
error; otherwise a status is returned with a nil error, whatever the manager state,
the round-trip time, the OS-metric outcomes and the GPS outcome are. -/
theorem GenerateStatus_error_iff (N : Numerics) (s : statusManager N) (env : Env N)
    (rtt : Int) :
    ((GenerateStatus N s env rtt).err.isSome ↔ env.interfaceAddrs.toOption.isNone) ∧
    (GenerateStatus N s env rtt).status.isSome = (GenerateStatus N s env rtt).err.isNone ∧
    match env.interfaceAddrs with
    | .error e =>
        (GenerateStatus N s env rtt).status.isNone ∧
        (GenerateStatus N s env rtt).err
          = some (errorsWrap e "Net interfaces obtention error")
    | .ok _ =>
        (GenerateStatus N s env rtt).status.isSome ∧
        (GenerateStatus N s env rtt).err = none := by
  unfold GenerateStatus
  cases hb : s.bootTime <;> cases hn : env.interfaceAddrs <;>
    cases hc : s.isGPSChip <;> cases hg : env.gps <;>
    simp [Except.toOption]

/-! ## Location precedence -/

theorem location_of_fix {N : Numerics} (s : statusManager N) (env : Env N)
    (rtt : Int) (g : GPSCoordinates N) (addrs : List Addr)
    (hchip : s.isGPSChip = true) (hgps : env.gps = .ok g)
    (hnet : env.interfaceAddrs = .ok addrs) :
    ∃ st, (GenerateStatus N s env rtt).status = some st ∧
      st.Gps = some
        { Latitude := N.float32 g.Latitude
          Longitude := N.float32 g.Longitude
          Altitude := N.int32OfGPS g.Altitude } := by
  unfold GenerateStatus
  cases hb : s.bootTime <;> simp [hchip, hgps, hnet]

theorem location_of_descriptor {N : Numerics} (s : statusManager N) (env : Env N)
    (rtt : Int) (addrs : List Addr) (hnet : env.interfaceAddrs = .ok addrs)
    (hfix : s.isGPSChip = true → ∃ e, env.gps = .error e) :
    ∃ st, (GenerateStatus N s env rtt).status = some st ∧
      st.Gps = some
        (match s.antennaLocation with
         | some loc =>
            { Latitude := (loc.Latitude.map N.float32).getD N.zero32
              Longitude := (loc.Longitude.map N.float32).getD N.zero32
              Altitude := (loc.Altitude.map N.int32OfAccount).getD 0 }
         | none => { Latitude := N.zero32, Longitude := N.zero32, Altitude := 0 }) := by
  unfold GenerateStatus accountCoordinates GPSMetadata.zero
  cases hc : s.isGPSChip
  · cases hb : s.bootTime <;> cases hl : s.antennaLocation <;> simp [hnet]
    all_goals
      rename_i loc
      cases hlat : loc.Latitude <;> cases hlon : loc.Longitude <;>
        cases halt : loc.Altitude <;> simp
  · obtain ⟨e, hgps⟩ := hfix hc
    cases hb : s.bootTime <;> cases hl : s.antennaLocation <;> simp [hnet, hgps]
    all_goals
      rename_i loc
      cases hlat : loc.Latitude <;> cases hlon : loc.Longitude <;>
        cases halt : loc.Altitude <;> simp

theorem events_of_failed_fix {N : Numerics} (s : statusManager N) (env : Env N)
    (rtt : Int) (e : GoError) (addrs : List Addr)
    (hchip : s.isGPSChip = true) (hgps : env.gps = .error e)
    (hnet : env.interfaceAddrs = .ok addrs) :
    (GenerateStatus N s env rtt).err = none ∧
    Event.warn (some e) "Unable to retrieve GPS coordinates from the GPS hardware"
      ∈ (GenerateStatus N s env rtt).events := by
  unfold GenerateStatus
  cases hb : s.bootTime <;> simp [hchip, hgps, hnet]

theorem events_without_chip {N : Numerics} (s : statusManager N) (env : Env N)
    (rtt : Int) (hchip : s.isGPSChip = false) :
    Event.query .gps ∉ (GenerateStatus N s env rtt).events ∧
    ∀ err msg, Event.warn err msg ∉ (GenerateStatus N s env rtt).events := by
  unfold GenerateStatus getOSInfoEvents
  cases hb : s.bootTime <;> cases hn : env.interfaceAddrs <;> simp [hchip]

theorem run_config {N : Numerics} (ops : List (Op N)) (s : statusManager N) :
    (run s ops).isGPSChip = s.isGPSChip ∧
    (run s ops).antennaLocation = s.antennaLocation := by
  induction ops generalizing s with
  | nil => exact ⟨rfl, rfl⟩
  | cons op ops ih =>
    rw [run_cons]
    obtain ⟨h1, h2⟩ := ih (step s op)
    rw [h1, h2]
    cases op <;> exact ⟨rfl, rfl⟩

/-- C2. On a manager constructed with the GPS-chip flag true, whatever its
account-server descriptor (absent, partial or complete) and whatever operations
followed, a `GenerateStatus` call whose network enumeration and GPS read both
succeed returns a snapshot whose location is the GPS reader's latitude, longitude
and altitude (converted to the field types of the snapshot); the descriptor plays
no part in it. -/
theorem GenerateStatus_gps_overrides (N : Numerics)
    (frequencyPlan gatewayDescription : String)
    (descriptor : Option (AntennaLocation N)) (ops : List (Op N))
    (env : Env N) (rtt : Int) (g : GPSCoordinates N) (addrs : List Addr)
    (hgps : env.gps = .ok g) (hnet : env.interfaceAddrs = .ok addrs) :
    ∃ st,
      (GenerateStatus N
        (run (NewStatusManager N frequencyPlan gatewayDescription true descriptor).1 ops)
        env rtt).status = some st ∧
      st.Gps = some
        { Latitude := N.float32 g.Latitude
          Longitude := N.float32 g.Longitude
          Altitude := N.int32OfGPS g.Altitude } :=
  location_of_fix _ env rtt g addrs ((run_config ops _).1.trans rfl) hgps hnet

/-- Witness of C2: a manager with a GPS chip and the sample descriptor, three uplink
batches, then a snapshot with a GPS fix. -/
theorem GenerateStatus_gps_overrides_witness :
    ∃ st, (GenerateStatus exactNumerics (run sampleChipManager sampleBatches)
        sampleEnv 5000000).status = some st ∧
      st.Gps = some
        { Latitude := exactNumerics.float32 (48.25 : ℚ)
          Longitude := exactNumerics.float32 (2.5 : ℚ)
          Altitude := 35 } :=
  GenerateStatus_gps_overrides exactNumerics "EU_863_870" "test gateway"
    (some sampleDescriptor) sampleBatches sampleEnv 5000000 sampleFix sampleAddrs rfl rfl

/-- C3, as stated, fails: on a manager constructed with a GPS chip and without
descriptor, a snapshot taken while the GPS read fails has a location that is not
nil, as the absent descriptor is, but a record with every field zero. -/
theorem GenerateStatus_failed_fix_location_not_nil :
    ∃ st, (GenerateStatus exactNumerics sampleChipOnlyManager sampleEnvNoFix
        5000000).status = some st ∧
      st.Gps = some (GPSMetadata.zero exactNumerics) ∧ st.Gps ≠ none :=
  ⟨_, rfl, rfl, by simp⟩

/-- C3, amended. On a manager constructed with the GPS-chip flag true, a
`GenerateStatus` call whose network enumeration succeeds and whose GPS read fails
returns, with a nil error, a snapshot whose location is a non-nil record built from
the account-server descriptor: each of latitude, longitude and altitude is the
descriptor's value when the descriptor has it and is left unset (the zero value of
the field) when it is missing, so that every field is zero when no descriptor was
configured; and the warning carrying the GPS error is on the logging sink. -/
theorem GenerateStatus_gps_failure_falls_back (N : Numerics)
    (frequencyPlan gatewayDescription : String)
    (descriptor : Option (AntennaLocation N)) (ops : List (Op N))
    (env : Env N) (rtt : Int) (e : GoError) (addrs : List Addr)
    (hgps : env.gps = .error e) (hnet : env.interfaceAddrs = .ok addrs) :
    (∃ st,
      (GenerateStatus N
        (run (NewStatusManager N frequencyPlan gatewayDescription true descriptor).1 ops)
        env rtt).status = some st ∧
      st.Gps = some
        (match descriptor with
         | some loc =>
            { Latitude := (loc.Latitude.map N.float32).getD N.zero32
              Longitude := (loc.Longitude.map N.float32).getD N.zero32
              Altitude := (loc.Altitude.map N.int32OfAccount).getD 0 }
         | none => { Latitude := N.zero32, Longitude := N.zero32, Altitude := 0 })) ∧
    (GenerateStatus N
      (run (NewStatusManager N frequencyPlan gatewayDescription true descriptor).1 ops)
      env rtt).err = none ∧
    Event.warn (some e) "Unable to retrieve GPS coordinates from the GPS hardware"
      ∈ (GenerateStatus N
          (run (NewStatusManager N frequencyPlan gatewayDescription true descriptor).1 ops)
          env rtt).events := by
  have hc : (run (NewStatusManager N frequencyPlan gatewayDescription true
      descriptor).1 ops).isGPSChip = true := (run_config ops _).1.trans rfl
  have hd : (run (NewStatusManager N frequencyPlan gatewayDescription true
      descriptor).1 ops).antennaLocation = descriptor := (run_config ops _).2.trans rfl
  have hloc := location_of_descriptor
    (run (NewStatusManager N frequencyPlan gatewayDescription true descriptor).1 ops)
    env rtt addrs hnet (fun _ => ⟨e, hgps⟩)
  rw [hd] at hloc
  exact ⟨hloc, events_of_failed_fix _ env rtt e addrs hc hgps hnet⟩

/-- Witness of the amended C3: a manager with a GPS chip whose read fails; the
location has the descriptor's latitude and longitude and an unset altitude. -/
theorem GenerateStatus_gps_failure_falls_back_witness :
    (∃ st, (GenerateStatus exactNumerics (run sampleChipManager sampleBatches)
        sampleEnvNoFix 5000000).status = some st ∧
      st.Gps = some
        { Latitude := exactNumerics.float32 (52.5 : ℚ)
          Longitude := exactNumerics.float32 (4.75 : ℚ)
          Altitude := 0 }) ∧
    (GenerateStatus exactNumerics (run sampleChipManager sampleBatches)
      sampleEnvNoFix 5000000).err = none ∧
    Event.warn (some ⟨"no GPS fix"⟩)
        "Unable to retrieve GPS coordinates from the GPS hardware"
      ∈ (GenerateStatus exactNumerics (run sampleChipManager sampleBatches)
          sampleEnvNoFix 5000000).events :=
  GenerateStatus_gps_failure_falls_back exactNumerics "EU_863_870" "test gateway"
    (some sampleDescriptor) sampleBatches sampleEnvNoFix 5000000 ⟨"no GPS fix"⟩
    sampleAddrs rfl rfl

/-- C4, as stated, fails: a manager constructed without GPS chip and without
descriptor returns a snapshot whose location is not nil but a record with every
field zero. -/
theorem GenerateStatus_no_descriptor_location_not_nil :
    ∃ st, (GenerateStatus exactNumerics samplePlainManager sampleEnv 5000000).status
        = some st ∧
      st.Gps = some (GPSMetadata.zero exactNumerics) ∧ st.Gps ≠ none :=
  ⟨_, rfl, rfl, by simp⟩

/-- C4, amended. On a manager constructed with the GPS-chip flag false,
`GenerateStatus` never queries the GPS reader, whether the network enumeration
succeeds or fails, and when the enumeration succeeds the location of the returned
snapshot is the account-server descriptor (a missing sub-field unset) when one was
configured, and a non-nil record with every field zero when none was. -/
theorem GenerateStatus_no_chip_location (N : Numerics)
    (frequencyPlan gatewayDescription : String)
    (descriptor : Option (AntennaLocation N)) (ops : List (Op N))
    (env : Env N) (rtt : Int) :
    Event.query .gps
      ∉ (GenerateStatus N
          (run (NewStatusManager N frequencyPlan gatewayDescription false descriptor).1 ops)
          env rtt).events ∧
    ∀ addrs, env.interfaceAddrs = .ok addrs → ∃ st,
      (GenerateStatus N
        (run (NewStatusManager N frequencyPlan gatewayDescription false descriptor).1 ops)
        env rtt).status = some st ∧
      st.Gps = some
        (match descriptor with
         | some loc =>
            { Latitude := (loc.Latitude.map N.float32).getD N.zero32
              Longitude := (loc.Longitude.map N.float32).getD N.zero32
              Altitude := (loc.Altitude.map N.int32OfAccount).getD 0 }
         | none => { Latitude := N.zero32, Longitude := N.zero32, Altitude := 0 }) := by
  have hc : (run (NewStatusManager N frequencyPlan gatewayDescription false
      descriptor).1 ops).isGPSChip = false := (run_config ops _).1.trans rfl
  have hd : (run (NewStatusManager N frequencyPlan gatewayDescription false
      descriptor).1 ops).antennaLocation = descriptor := (run_config ops _).2.trans rfl
  refine ⟨(events_without_chip _ env rtt hc).1, fun addrs hnet => ?_⟩
  have hloc := location_of_descriptor
    (run (NewStatusManager N frequencyPlan gatewayDescription false descriptor).1 ops)
    env rtt addrs hnet (fun h => Bool.noConfusion (hc.symm.trans h))
  rw [hd] at hloc
  exact hloc

/-- Witness of the amended C4 on a manager without chip and with the sample
descriptor: the GPS reader is not queried, with a failing enumeration as with a
successful one, and the location is the descriptor. -/
theorem GenerateStatus_no_chip_location_witness :
    Event.query .gps
      ∉ (GenerateStatus exactNumerics
          (run (NewStatusManager exactNumerics "EU_863_870" "test gateway" false
            (some sampleDescriptor)).1 sampleBatches) sampleEnvNoNet 5000000).events ∧
    Event.query .gps
      ∉ (GenerateStatus exactNumerics
          (run (NewStatusManager exactNumerics "EU_863_870" "test gateway" false
            (some sampleDescriptor)).1 sampleBatches) sampleEnv 5000000).events ∧
    ∃ st,
      (GenerateStatus exactNumerics
          (run (NewStatusManager exactNumerics "EU_863_870" "test gateway" false
            (some sampleDescriptor)).1 sampleBatches) sampleEnv 5000000).status
        = some st ∧
      st.Gps = some
        { Latitude := exactNumerics.float32 (52.5 : ℚ)
          Longitude := exactNumerics.float32 (4.75 : ℚ)
          Altitude := 0 } :=
  ⟨(GenerateStatus_no_chip_location exactNumerics "EU_863_870" "test gateway"
      (some sampleDescriptor) sampleBatches sampleEnvNoNet 5000000).1,
   (GenerateStatus_no_chip_location exactNumerics "EU_863_870" "test gateway"
      (some sampleDescriptor) sampleBatches sampleEnv 5000000).1,
   (GenerateStatus_no_chip_location exactNumerics "EU_863_870" "test gateway"
      (some sampleDescriptor) sampleBatches sampleEnv 5000000).2 sampleAddrs rfl⟩

/-! ## Traffic counters -/

/-- C5, as stated, fails: after three calls `HandledRXBatch(2147483647, 0)` on a
fresh manager the received-uplink counter is 2147483645, not the sum 6442450941 of
the three increments. -/
theorem counters_not_exact_sums :
    (run samplePlainManager
        [.HandledRXBatch 2147483647 0, .HandledRXBatch 2147483647 0,
         .HandledRXBatch 2147483647 0]).rxIn = 2147483645 ∧
    ((run samplePlainManager
        [.HandledRXBatch 2147483647 0, .HandledRXBatch 2147483647 0,
         .HandledRXBatch 2147483647 0]).rxIn : Int)
      ≠ 2147483647 + 2147483647 + 2147483647 := by
  decide

/-- C5, amended. After any finite sequence of operations on a freshly constructed
manager each counter is the sum of its increments reduced modulo `2^32` (rxIn the
`received` arguments, rxOk the `valid` arguments, txIn the number of `ReceivedTX`
calls, txOk the number of `SentTX` calls), hence the exact sum whenever that sum
lies in `[0, 2^32)`; and a following successful `GenerateStatus` returns a snapshot
with exactly these four counter values. -/
theorem counters_after_run (N : Numerics) (frequencyPlan gatewayDescription : String)
    (isGPSChip : Bool) (antennaLocation : Option (AntennaLocation N))
    (ops : List (Op N)) (env : Env N) (rtt : Int) (addrs : List Addr)
    (hnet : env.interfaceAddrs = .ok addrs) :
    let s := run
      (NewStatusManager N frequencyPlan gatewayDescription isGPSChip antennaLocation).1 ops
    ((s.rxIn : Int) = (ops.map Op.received).sum % 4294967296 ∧
     (s.rxOk : Int) = (ops.map Op.valid).sum % 4294967296 ∧
     (s.txIn : Int) = (ops.map Op.downlinksReceived).sum % 4294967296 ∧
     (s.txOk : Int) = (ops.map Op.downlinksSent).sum % 4294967296) ∧
    (((ops.map Op.received).sum < 4294967296 ∧ ∀ op ∈ ops, 0 ≤ op.received) →
      (s.rxIn : Int) = (ops.map Op.received).sum) ∧
    (((ops.map Op.valid).sum < 4294967296 ∧ ∀ op ∈ ops, 0 ≤ op.valid) →
      (s.rxOk : Int) = (ops.map Op.valid).sum) ∧
    ∃ st, (GenerateStatus N s env rtt).status = some st ∧
      st.RxIn = s.rxIn ∧ st.RxOk = s.rxOk ∧ st.TxIn = s.txIn ∧ st.TxOk = s.txOk := by
  intro s
  have hfresh : inRange
      (NewStatusManager N frequencyPlan gatewayDescription isGPSChip antennaLocation).1 := by
    simp [inRange, NewStatusManager]
  obtain ⟨r1, r2, r3, r4⟩ := run_inRange ops _ hfresh
  obtain ⟨c1, c2, c3, c4⟩ := run_counters ops
    (NewStatusManager N frequencyPlan gatewayDescription isGPSChip antennaLocation).1
  simp only [NewStatusManager, Nat.cast_zero, zero_add] at c1 c2 c3 c4
  have e1 : (s.rxIn : Int) = (ops.map Op.received).sum % 4294967296 := by
    rw [← c1]; show (s.rxIn : Int) = (s.rxIn : Int) % 4294967296
    have : s.rxIn < 4294967296 := r1
    omega
  have e2 : (s.rxOk : Int) = (ops.map Op.valid).sum % 4294967296 := by
    rw [← c2]; show (s.rxOk : Int) = (s.rxOk : Int) % 4294967296
    have : s.rxOk < 4294967296 := r2
    omega
  have e3 : (s.txIn : Int) = (ops.map Op.downlinksReceived).sum % 4294967296 := by
    rw [← c3]; show (s.txIn : Int) = (s.txIn : Int) % 4294967296
    have : s.txIn < 4294967296 := r3
    omega
  have e4 : (s.txOk : Int) = (ops.map Op.downlinksSent).sum % 4294967296 := by
    rw [← c4]; show (s.txOk : Int) = (s.txOk : Int) % 4294967296
    have : s.txOk < 4294967296 := r4
    omega
  refine ⟨⟨e1, e2, e3, e4⟩, ?_, ?_, ?_⟩
  · rintro ⟨hlt, hnn⟩
    have h0 : 0 ≤ (ops.map Op.received).sum :=
      List.sum_nonneg (by simpa using hnn)
    rw [e1]; omega
  · rintro ⟨hlt, hnn⟩
    have h0 : 0 ≤ (ops.map Op.valid).sum :=
      List.sum_nonneg (by simpa using hnn)
    rw [e2]; omega
  · unfold GenerateStatus
    cases hb : s.bootTime <;> cases hc : s.isGPSChip <;> cases hg : env.gps <;>
      simp [hnet]

/-- Witness of the amended C5: three calls `HandledRXBatch(10, 8)` on a fresh
manager, then a snapshot. -/
theorem counters_after_run_witness :
    ∃ st, (GenerateStatus exactNumerics (run samplePlainManager sampleBatches)
        sampleEnv 5000000).status = some st ∧
      st.RxIn = 30 ∧ st.RxOk = 24 ∧ st.TxIn = 0 ∧ st.TxOk = 0 := by
  obtain ⟨_, _, _, st, h, h1, h2, h3, h4⟩ :=
    counters_after_run exactNumerics "EU_863_870" "test gateway" false none sampleBatches
      sampleEnv 5000000 sampleAddrs rfl
  exact ⟨st, h, h1.trans (by decide), h2.trans (by decide), h3.trans (by decide),
    h4.trans (by decide)⟩

/-- C6, as stated, fails: on the manager reached from a fresh one by two calls
`HandledRXBatch(2147483647, 0)`, where rxIn is 4294967294, the call
`HandledRXBatch(2, 0)` leaves rxIn at 0. -/
theorem counter_decreases_on_wraparound :
    (run samplePlainManager
        [.HandledRXBatch 2147483647 0, .HandledRXBatch 2147483647 0]).rxIn = 4294967294 ∧
    (step (run samplePlainManager
        [.HandledRXBatch 2147483647 0, .HandledRXBatch 2147483647 0])
      (.HandledRXBatch 2 0)).rxIn = 0 ∧
    ¬ (run samplePlainManager
        [.HandledRXBatch 2147483647 0, .HandledRXBatch 2147483647 0]).rxIn
      ≤ (step (run samplePlainManager
          [.HandledRXBatch 2147483647 0, .HandledRXBatch 2147483647 0])
        (.HandledRXBatch 2 0)).rxIn := by
  decide

/-- C6, amended. The counters are 32-bit and wrap around: for every manager state
and every operation with non-negative arguments, a counter whose value plus the
increment of the operation stays below `2^32` is after the operation at least what
it was before, and `SetBootTime` and `GenerateStatus` leave the four counters
unchanged. -/
theorem counters_monotone_below_wraparound (N : Numerics) (s : statusManager N)
    (op : Op N) (hr : 0 ≤ op.received) (hv : 0 ≤ op.valid) :
    (s.rxIn + op.received < 4294967296 → s.rxIn ≤ (step s op).rxIn) ∧
    (s.rxOk + op.valid < 4294967296 → s.rxOk ≤ (step s op).rxOk) ∧
    (s.txIn + op.downlinksReceived < 4294967296 → s.txIn ≤ (step s op).txIn) ∧
    (s.txOk + op.downlinksSent < 4294967296 → s.txOk ≤ (step s op).txOk) ∧
    (∀ t, (step s (.SetBootTime t)).rxIn = s.rxIn ∧ (step s (.SetBootTime t)).rxOk = s.rxOk ∧
      (step s (.SetBootTime t)).txIn = s.txIn ∧ (step s (.SetBootTime t)).txOk = s.txOk) ∧
    (∀ env rtt, step s (.GenerateStatus env rtt) = s) := by
  have key : ∀ (c : Nat) (d : Int), 0 ≤ d → (c : Int) + d < 4294967296 →
      c ≤ atomicAddUint32 c (uint32 d) := by
    intro c d hd hlt
    have hu := uint32_cast d
    unfold atomicAddUint32
    omega
  have key1 : ∀ c : Nat, (c : Int) + 1 < 4294967296 → c ≤ atomicAddUint32 c 1 := by
    intro c hlt
    unfold atomicAddUint32
    omega
  refine ⟨?_, ?_, ?_, ?_, fun t => ⟨rfl, rfl, rfl, rfl⟩, fun _ _ => rfl⟩ <;>
    cases op <;>
    simp only [step, SetBootTime, ReceivedTX, SentTX, HandledRXBatch, Op.received,
      Op.valid, Op.downlinksReceived, Op.downlinksSent, le_refl, implies_true] at hr hv ⊢
  · exact key _ _ hr
  · exact key _ _ hv
  · exact key1 _
  · exact key1 _

/-- Witness of the amended C6: a batch of 10 received and 8 valid frames on the
manager reached by three such batches. -/
theorem counters_monotone_below_wraparound_witness :
    (run samplePlainManager sampleBatches).rxIn
      ≤ (step (run samplePlainManager sampleBatches) (.HandledRXBatch 10 8)).rxIn ∧
    (run samplePlainManager sampleBatches).rxOk
      ≤ (step (run samplePlainManager sampleBatches) (.HandledRXBatch 10 8)).rxOk :=
  have h := counters_monotone_below_wraparound exactNumerics
    (run samplePlainManager sampleBatches) (.HandledRXBatch 10 8) (by decide) (by decide)
  ⟨h.1 (by decide), h.2.1 (by decide)⟩

/-! ## Uptime before the boot time is set -/

/-- C8. On a manager on which `SetBootTime` was never called (a fresh manager after
any operations other than `SetBootTime`), every `GenerateStatus` call whose network
enumeration succeeds returns, with a nil error, a snapshot whose `Timestamp` is 0. -/
theorem GenerateStatus_uptime_zero_before_SetBootTime (N : Numerics)
    (frequencyPlan gatewayDescription : String) (isGPSChip : Bool)
    (antennaLocation : Option (AntennaLocation N)) (ops : List (Op N))
    (env : Env N) (rtt : Int) (addrs : List Addr)
    (hops : ∀ op ∈ ops, op.isSetBootTime = false)
    (hnet : env.interfaceAddrs = .ok addrs) :
    let s := run
      (NewStatusManager N frequencyPlan gatewayDescription isGPSChip antennaLocation).1 ops
    (GenerateStatus N s env rtt).err = none ∧
    ∃ st, (GenerateStatus N s env rtt).status = some st ∧ st.Timestamp = 0 := by
  intro s
  have hb : s.bootTime = none := by
    show (run _ ops).bootTime = none
    rw [run_bootTime ops _ hops]
    rfl
  unfold GenerateStatus
  cases hc : s.isGPSChip <;> cases hg : env.gps <;>
    simp [hb, hnet, TXTimestampFromDuration, uint32]

/-- Witness of C8: three uplink batches on a fresh manager, then a snapshot. -/
theorem GenerateStatus_uptime_zero_before_SetBootTime_witness :
    (GenerateStatus exactNumerics (run samplePlainManager sampleBatches)
        sampleEnv 5000000).err = none ∧
    ∃ st, (GenerateStatus exactNumerics (run samplePlainManager sampleBatches)
        sampleEnv 5000000).status = some st ∧ st.Timestamp = 0 :=
  GenerateStatus_uptime_zero_before_SetBootTime exactNumerics "EU_863_870" "test gateway"
    false none sampleBatches sampleEnv 5000000 sampleAddrs (by decide) rfl

/-! ## Network addresses -/

/-- C9, as stated, fails: an enumeration consisting of the `*net.IPAddr`
192.168.1.5, which is non-loopback and IPv4, yields an empty `Ip` list, where the
claim puts the rendered address. -/
theorem Ip_skips_non_IPNet :
    (∃ st, (GenerateStatus exactNumerics samplePlainManager sampleEnvAnycast
        5000000).status = some st ∧ st.Ip = []) ∧
    specIpList [.IPAddr [192, 168, 1, 5] ""] = ["192.168.1.5"] :=
  ⟨⟨_, rfl, rfl⟩, by decide⟩

/-- C9, amended. After a successful enumeration the `Ip` list of the snapshot
consists of exactly the enumerated addresses that are `*net.IPNet` values,
non-loopback and IPv4-mappable, each rendered as a string, in the order enumerated
(duplicates kept, nothing else); it is empty when no address is of this kind. -/
theorem GenerateStatus_Ip (N : Numerics) (s : statusManager N) (env : Env N)
    (rtt : Int) (addrs : List Addr) (hnet : env.interfaceAddrs = .ok addrs) :
    ∃ st, (GenerateStatus N s env rtt).status = some st ∧
      st.Ip = ((addrs.filter fun a => a.isIPNet && a.qualifies).map
        fun a => IPString a.ip) ∧
      ((∀ a ∈ addrs, (a.isIPNet && a.qualifies) = false) → st.Ip = []) := by
  have hfold := foldl_collectIP addrs []
  have hempty : (∀ a ∈ addrs, (a.isIPNet && a.qualifies) = false) →
      ((addrs.filter fun a => a.isIPNet && a.qualifies).map
        fun a => IPString a.ip) = [] := by
    intro h
    rw [List.map_eq_nil_iff, List.filter_eq_nil_iff]
    intro a ha
    simp [h a ha]
  unfold GenerateStatus
  cases hb : s.bootTime <;> cases hc : s.isGPSChip <;> cases hg : env.gps <;>
    simp only [hnet, hfold, List.nil_append] <;>
    exact ⟨_, rfl, rfl, hempty⟩

/-- Witness of the amended C9 on the sample host: of the loopback address, the
address 192.168.1.5 and the IPv6 loopback, only 192.168.1.5 is listed. -/
theorem GenerateStatus_Ip_witness :
    ∃ st, (GenerateStatus exactNumerics samplePlainManager sampleEnv 5000000).status
        = some st ∧ st.Ip = ["192.168.1.5"] := by
  obtain ⟨st, h, hip, _⟩ :=
    GenerateStatus_Ip exactNumerics samplePlainManager sampleEnv 5000000 sampleAddrs rfl
  exact ⟨st, h, hip.trans (by decide)⟩

/-! ## OS metrics -/

/-- C10. Each OS metric of the snapshot depends on its own query alone. The CPU
field is the zero value when `cpu.Times` fails or returns no entry and otherwise the
usage percentage of the first entry; the three load fields are zero when `load.Avg`
fails and otherwise its three averages; the memory field is zero when
`mem.VirtualMemory` fails and otherwise its used percentage (each value converted
to `float32`), for every combination of the three outcomes. -/
theorem GenerateStatus_Os_best_effort (N : Numerics) (s : statusManager N) (env : Env N)
    (rtt : Int) (addrs : List Addr) (hnet : env.interfaceAddrs = .ok addrs) :
    ∃ st os, (GenerateStatus N s env rtt).status = some st ∧ st.Os = some os ∧
      os.CpuPercentage =
        (match env.cpuTimes with
         | .ok (cpuStat :: _) =>
            N.float32
              (N.mul (N.div (N.sub cpuStat.Total cpuStat.Idle) cpuStat.Total) N.hundred)
         | _ => N.zero32) ∧
      os.Load_1 =
        (match env.loadAvg with
         | .ok loadInfo => N.float32 loadInfo.Load1
         | .error _ => N.zero32) ∧
      os.Load_5 =
        (match env.loadAvg with
         | .ok loadInfo => N.float32 loadInfo.Load5
         | .error _ => N.zero32) ∧
      os.Load_15 =
        (match env.loadAvg with
         | .ok loadInfo => N.float32 loadInfo.Load15
         | .error _ => N.zero32) ∧
      os.MemoryPercentage =
        (match env.virtualMemory with
         | .ok virtualMemory => N.float32 virtualMemory.UsedPercent
         | .error _ => N.zero32) := by
  have hos : ∀ os, os = getOSInfo N env →
      os.CpuPercentage =
        (match env.cpuTimes with
         | .ok (cpuStat :: _) =>
            N.float32
              (N.mul (N.div (N.sub cpuStat.Total cpuStat.Idle) cpuStat.Total) N.hundred)
         | _ => N.zero32) ∧
      os.Load_1 =
        (match env.loadAvg with
         | .ok loadInfo => N.float32 loadInfo.Load1
         | .error _ => N.zero32) ∧
      os.Load_5 =
        (match env.loadAvg with
         | .ok loadInfo => N.float32 loadInfo.Load5
         | .error _ => N.zero32) ∧
      os.Load_15 =
        (match env.loadAvg with
         | .ok loadInfo => N.float32 loadInfo.Load15
         | .error _ => N.zero32) ∧
      os.MemoryPercentage =
        (match env.virtualMemory with
         | .ok virtualMemory => N.float32 virtualMemory.UsedPercent
         | .error _ => N.zero32) := by
    rintro os rfl
    unfold getOSInfo OSMetrics.zero
    rcases hcpu : env.cpuTimes with _ | (_ | ⟨c, cs⟩) <;>
      cases hload : env.loadAvg <;> cases hmem : env.virtualMemory <;> simp
  unfold GenerateStatus
  cases hb : s.bootTime <;> cases hc : s.isGPSChip <;> cases hg : env.gps <;>
    simp only [hnet] <;>
    exact ⟨_, _, rfl, rfl, hos _ rfl⟩

/-- Witness of C10: CPU unavailable, load averages (0.1, 0.2, 0.3), memory use 42.5. -/
theorem GenerateStatus_Os_best_effort_witness :
    ∃ st os, (GenerateStatus exactNumerics samplePlainManager sampleEnv 5000000).status
        = some st ∧ st.Os = some os ∧
      os.CpuPercentage = exactNumerics.zero32 ∧
      os.Load_1 = exactNumerics.float32 (0.1 : ℚ) ∧
      os.Load_5 = exactNumerics.float32 (0.2 : ℚ) ∧
      os.Load_15 = exactNumerics.float32 (0.3 : ℚ) ∧
      os.MemoryPercentage = exactNumerics.float32 (42.5 : ℚ) :=
  GenerateStatus_Os_best_effort exactNumerics samplePlainManager sampleEnv 5000000
    sampleAddrs rfl

/-! ## Concurrent counter updates -/

theorem atoms_exec_eq_step {N : Numerics} (s : statusManager N) (c : CounterCall) :
    c.atoms.foldl Atom.exec s = step s c.toOp := by
  cases c <;> rfl

theorem exec_counter {N : Numerics} (s : statusManager N) (a : Atom) (k : Counter) :
    (((a.exec s).counter k : Nat) : Int) % 4294967296
      = ((s.counter k : Int) + (a.amount k : Int)) % 4294967296 := by
  cases a <;> cases k <;>
    simp only [Atom.exec, statusManager.counter, Atom.amount, atomicAddUint32,
      Int.natCast_mod, Nat.cast_add, Nat.cast_ofNat, Nat.cast_zero] <;>
    omega

theorem exec_inRange {N : Numerics} (s : statusManager N) (a : Atom)
    (h : inRange s) : inRange (a.exec s) := by
  obtain ⟨h1, h2, h3, h4⟩ := h
  cases a <;> simp only [Atom.exec, inRange, atomicAddUint32] <;> omega

theorem pendingAmount_set (pending : List (List Atom)) (i : Nat) (a : Atom)
    (rest : List Atom) (k : Counter) (h : pending[i]? = some (a :: rest)) :
    pendingAmount (pending.set i rest) k + (a.amount k : Int) = pendingAmount pending k := by
  induction pending generalizing i with
  | nil => simp at h
  | cons p ps ih =>
    cases i with
    | zero =>
      simp only [List.getElem?_cons_zero, Option.some.injEq] at h
      subst h
      simp only [pendingAmount, List.set_cons_zero, List.map_cons, List.sum_cons]
      omega
    | succ j =>
      simp only [List.getElem?_cons_succ] at h
      have := ih j h
      simp only [pendingAmount, List.set_cons_succ, List.map_cons, List.sum_cons] at this ⊢
      omega

theorem schedStep_invariant {N : Numerics} (st : statusManager N × List (List Atom))
    (i : Nat) (k : Counter) :
    (((schedStep st i).1.counter k : Nat) : Int) + pendingAmount (schedStep st i).2 k
        ≡ (st.1.counter k : Int) + pendingAmount st.2 k [ZMOD 4294967296] ∧
    (inRange st.1 → inRange (schedStep st i).1) := by
  unfold schedStep
  split
  · rename_i a rest h
    have h1 := exec_counter st.1 a k
    have h2 := pendingAmount_set st.2 i a rest k h
    refine ⟨?_, exec_inRange st.1 a⟩
    show (_ + _) % _ = (_ + _) % _
    simp only
    omega
  · exact ⟨Int.ModEq.refl _, id⟩

theorem runSchedule_invariant {N : Numerics} (sched : List Nat)
    (s : statusManager N) (pending : List (List Atom)) (k : Counter) :
    (((runSchedule s pending sched).1.counter k : Nat) : Int)
        + pendingAmount (runSchedule s pending sched).2 k
        ≡ (s.counter k : Int) + pendingAmount pending k [ZMOD 4294967296] ∧
    (inRange s → inRange (runSchedule s pending sched).1) := by
  induction sched generalizing s pending with
  | nil => exact ⟨Int.ModEq.refl _, id⟩
  | cons i sched ih =>
    obtain ⟨e1, r1⟩ := schedStep_invariant (s, pending) i k
    obtain ⟨e2, r2⟩ := ih (schedStep (s, pending) i).1 (schedStep (s, pending) i).2
    exact ⟨e2.trans e1, fun h => r2 (r1 h)⟩

theorem pendingAmount_finished (pending : List (List Atom)) (k : Counter)
    (h : finished pending = true) : pendingAmount pending k = 0 := by
  induction pending with
  | nil => rfl
  | cons p ps ih =>
    simp only [finished, List.all_cons, Bool.and_eq_true, List.isEmpty_iff] at h
    have := ih (by simpa [finished] using h.2)
    simp only [pendingAmount, List.map_cons, List.sum_cons] at this ⊢
    rw [h.1, this]
    rfl

theorem callerAtoms_amount (calls : List CounterCall) (k : Counter) :
    ((callerAtoms calls).map fun a => (a.amount k : Int)).sum
      ≡ (calls.map fun c => c.amount k).sum [ZMOD 4294967296] := by
  induction calls with
  | nil => exact Int.ModEq.refl _
  | cons c calls ih =>
    have hc : (c.atoms.map fun a => (a.amount k : Int)).sum
        ≡ c.amount k [ZMOD 4294967296] := by
      show _ % _ = _ % _
      cases c <;> cases k <;>
        simp only [CounterCall.atoms, CounterCall.amount, Atom.amount, List.map_cons,
          List.map_nil, List.sum_cons, List.sum_nil, uint32_cast, Nat.cast_zero,
          Nat.cast_one] <;>
        omega
    simp only [callerAtoms, List.map_append, List.sum_append, List.map_cons, List.sum_cons]
    exact Int.ModEq.add hc ih

theorem pendingAmount_callers (callers : List (List CounterCall)) (k : Counter) :
    pendingAmount (callers.map callerAtoms) k ≡ totalAmount callers k [ZMOD 4294967296] := by
  induction callers with
  | nil => exact Int.ModEq.refl _
  | cons calls callers ih =>
    simp only [pendingAmount, totalAmount, List.map_cons, List.sum_cons] at ih ⊢
    exact Int.ModEq.add (callerAtoms_amount calls k) ih

theorem exists_pending_atom (pending : List (List Atom))
    (h : finished pending = false) :
    ∃ (i : Nat) (a : Atom) (rest : List Atom), pending[i]? = some (a :: rest) := by
  induction pending with
  | nil => simp [finished] at h
  | cons p ps ih =>
    cases p with
    | nil =>
      obtain ⟨i, a, rest, hi⟩ := ih (by simpa [finished] using h)
      exact ⟨i + 1, a, rest, by simpa using hi⟩
    | cons a rest => exact ⟨0, a, rest, by simp⟩

theorem pending_length_set (pending : List (List Atom)) (i : Nat) (a : Atom)
    (rest : List Atom) (h : pending[i]? = some (a :: rest)) :
    ((pending.set i rest).map List.length).sum + 1 = (pending.map List.length).sum := by
  induction pending generalizing i with
  | nil => simp at h
  | cons p ps ih =>
    cases i with
    | zero =>
      simp only [List.getElem?_cons_zero, Option.some.injEq] at h
      subst h
      simp only [List.set_cons_zero, List.map_cons, List.sum_cons, List.length_cons]
      omega
    | succ j =>
      simp only [List.getElem?_cons_succ] at h
      have := ih j h
      simp only [List.set_cons_succ, List.map_cons, List.sum_cons] at this ⊢
      omega

theorem exists_complete_schedule {N : Numerics} (n : Nat) (s : statusManager N)
    (pending : List (List Atom)) (hn : (pending.map List.length).sum = n) :
    ∃ sched, finished (runSchedule s pending sched).2 = true := by
  induction n generalizing s pending with
  | zero =>
    cases hf : finished pending with
    | true => exact ⟨[], hf⟩
    | false =>
      obtain ⟨i, a, rest, hi⟩ := exists_pending_atom pending hf
      have := pending_length_set pending i a rest hi
      omega
  | succ n ih =>
    cases hf : finished pending with
    | true => exact ⟨[], hf⟩
    | false =>
      obtain ⟨i, a, rest, hi⟩ := exists_pending_atom pending hf
      have hlen := pending_length_set pending i a rest hi
      obtain ⟨sched, hs⟩ := ih (a.exec s) (pending.set i rest) (by omega)
      refine ⟨i :: sched, ?_⟩
      have hstep : schedStep (s, pending) i = (a.exec s, pending.set i rest) := by
        simp only [schedStep, hi]
      simp only [runSchedule, List.foldl_cons, hstep] at hs ⊢
      exact hs

theorem totalAmount_replicate (n m : Nat) (c : CounterCall) (k : Counter) :
    totalAmount (List.replicate n (List.replicate m c)) k = n * (m * c.amount k) := by
  simp [totalAmount, List.map_replicate, List.sum_replicate]

/-- C7, as stated, fails: three concurrent callers each issue
`HandledRXBatch(2147483647, 0)`; once all their atomic adds are done, in the
interleaving 0, 1, 0, 2, 2, 1, the received-uplink counter is 2147483645 and not the
sum 6442450941 of the increments. -/
theorem concurrent_counters_not_exact_sums :
    finished (runSchedule samplePlainManager (sampleHeavyCallers.map callerAtoms)
      sampleSchedule).2 = true ∧
    (runSchedule samplePlainManager (sampleHeavyCallers.map callerAtoms)
      sampleSchedule).1.rxIn = 2147483645 ∧
    totalAmount sampleHeavyCallers .rxIn = 6442450941 ∧
    ((runSchedule samplePlainManager (sampleHeavyCallers.map callerAtoms)
      sampleSchedule).1.rxIn : Int) ≠ totalAmount sampleHeavyCallers .rxIn := by
  decide

/-- C7, amended. Any number of callers issue calls of `HandledRXBatch`,
`ReceivedTX` and `SentTX` on a freshly constructed manager, and their atomic adds
are interleaved in any order that keeps each caller's own order. The callers can
always all finish, and once every caller is done each counter is the sum of all the
increments asked for, reduced modulo `2^32`, whatever the interleaving was: no
update is lost. It is the exact sum when that sum lies in `[0, 2^32)`, and `n`
callers issuing `m` calls of `ReceivedTX` each leave txIn at `n * m` modulo `2^32`. -/
theorem concurrent_counters_sum (N : Numerics) (frequencyPlan gatewayDescription : String)
    (isGPSChip : Bool) (antennaLocation : Option (AntennaLocation N))
    (callers : List (List CounterCall)) :
    (∃ sched, finished (runSchedule
      (NewStatusManager N frequencyPlan gatewayDescription isGPSChip antennaLocation).1
      (callers.map callerAtoms) sched).2 = true) ∧
    ∀ sched, finished (runSchedule
      (NewStatusManager N frequencyPlan gatewayDescription isGPSChip antennaLocation).1
      (callers.map callerAtoms) sched).2 = true →
    (∀ k, (((runSchedule
      (NewStatusManager N frequencyPlan gatewayDescription isGPSChip antennaLocation).1
      (callers.map callerAtoms) sched).1.counter k : Nat) : Int)
        = totalAmount callers k % 4294967296) ∧
    (∀ k, 0 ≤ totalAmount callers k → totalAmount callers k < 4294967296 →
      (((runSchedule
        (NewStatusManager N frequencyPlan gatewayDescription isGPSChip antennaLocation).1
        (callers.map callerAtoms) sched).1.counter k : Nat) : Int)
          = totalAmount callers k) ∧
    (∀ n m : Nat, callers = List.replicate n (List.replicate m .ReceivedTX) →
      (((runSchedule
        (NewStatusManager N frequencyPlan gatewayDescription isGPSChip antennaLocation).1
        (callers.map callerAtoms) sched).1.txIn : Nat) : Int)
          = (n * m : Int) % 4294967296) := by
  refine ⟨exists_complete_schedule _ _ _ rfl, fun sched hdone => ?_⟩
  have hfresh : inRange
      (NewStatusManager N frequencyPlan gatewayDescription isGPSChip antennaLocation).1 := by
    simp [inRange, NewStatusManager]
  have key : ∀ k, (((runSchedule
      (NewStatusManager N frequencyPlan gatewayDescription isGPSChip antennaLocation).1
      (callers.map callerAtoms) sched).1.counter k : Nat) : Int)
        = totalAmount callers k % 4294967296 := by
    intro k
    obtain ⟨e, r⟩ := runSchedule_invariant sched
      (NewStatusManager N frequencyPlan gatewayDescription isGPSChip antennaLocation).1
      (callers.map callerAtoms) k
    rw [pendingAmount_finished _ k hdone] at e
    have e2 := e.trans (Int.ModEq.add_left _ (pendingAmount_callers callers k))
    have hlt : (runSchedule
        (NewStatusManager N frequencyPlan gatewayDescription isGPSChip antennaLocation).1
        (callers.map callerAtoms) sched).1.counter k < 4294967296 := by
      obtain ⟨r1, r2, r3, r4⟩ := r hfresh
      cases k
      · exact r1
      · exact r2
      · exact r3
      · exact r4
    have h0 : ((NewStatusManager N frequencyPlan gatewayDescription isGPSChip
        antennaLocation).1.counter k : Int) = 0 := by
      cases k <;> rfl
    rw [h0] at e2
    have e3 : ((((runSchedule
        (NewStatusManager N frequencyPlan gatewayDescription isGPSChip antennaLocation).1
        (callers.map callerAtoms) sched).1.counter k : Nat) : Int) + 0) % 4294967296
        = (0 + totalAmount callers k) % 4294967296 := e2
    omega
  refine ⟨key, fun k h0 hlt => ?_, fun n m hc => ?_⟩
  · rw [key k]
    omega
  · subst hc
    have := key .txIn
    rw [totalAmount_replicate] at this
    simpa [statusManager.counter, CounterCall.amount] using this

/-- Witness of the amended C7: three concurrent callers each issue
`HandledRXBatch(10, 8)`; after the interleaving 0, 1, 0, 2, 2, 1 of their atomic
adds rxIn is 30 and rxOk is 24. -/
theorem concurrent_counters_sum_witness :
    (runSchedule samplePlainManager (sampleCallers.map callerAtoms)
      sampleSchedule).1.rxIn = 30 ∧
    (runSchedule samplePlainManager (sampleCallers.map callerAtoms)
      sampleSchedule).1.rxOk = 24 := by
  have h := ((concurrent_counters_sum exactNumerics "EU_863_870" "test gateway" false none
    sampleCallers).2 sampleSchedule (by decide)).1
  have h1 := h .rxIn
  have h2 := h .rxOk
  have t1 : totalAmount sampleCallers .rxIn % 4294967296 = 30 := by decide
  have t2 : totalAmount sampleCallers .rxOk % 4294967296 = 24 := by decide
  rw [t1] at h1
  rw [t2] at h2
  exact ⟨by exact_mod_cast h1, by exact_mod_cast h2⟩

end pktfwd
